import Mathlib

/-!
Shallow embedding of the fee-optimization decision engine and API
orchestration layer of the web3-fee-optimizer repository.

Numeric values carried by JavaScript `number` fields are modelled as
rationals (ℚ).  The result of `parseFloat` on the string-valued
`amountOut` field is modelled as `Option ℚ`, where `none` stands for a
`NaN` outcome (an unparseable string); JavaScript comparisons involving
`NaN` are always false, which `jsLtOpt` reproduces.

Exceptions are modelled with `Except JsError`.  `JsError.emptyReduce`
stands for the `TypeError` JavaScript raises when `Array.prototype.reduce`
is applied to an empty array with no initial value — the error the code
actually produces on an empty gas-quote or route-quote set, since
`analyzeQuoteData` performs no explicit emptiness check.
-/

namespace FeeOptimizer

/-- Errors that the modelled code can raise (plus the spec-level
`insufficientData`, see below). -/
inductive JsError where
  /-- `TypeError: Reduce of empty array with no initial value`, raised by a
  bare `Array.reduce` on an empty array. -/
  | emptyReduce : JsError
  /-- Modelled from the spec: the typed `InsufficientData` error of the
  spec's error taxonomy (§7).  No code path in `src/` constructs it; it is
  present only so that claims naming it can be stated and compared with
  what the code actually raises. -/
  | insufficientData : JsError
  /-- `Error` thrown by `makeRequest` for a non-2xx HTTP response:
  `HTTP ${status}: ${statusText}` (part_003 line 188). -/
  | httpError (status : Nat) (statusText : String) : JsError
  /-- Any other error thrown during `fetch`/`json()` (network failure,
  malformed body, ...). -/
  | networkError (msg : String) : JsError
  /-- `Error` thrown by `makeRequest` after exhausting the retry budget:
  `${name} API failed after ${n} attempts: ${last.message}` (part_003
  line 207).  It carries the service name, the attempt budget, and the last
  underlying error; this is the code's realisation of the spec's
  `ProviderUnavailable`. -/
  | providerUnavailable (service : String) (attempts : Nat) (last : JsError) : JsError
  /-- `Error('Fee optimization failed: ...')` rethrown by `analyzeSwap`
  (fee-optimization.ts line 135), wrapping the underlying error. -/
  | feeOptimizationFailed (cause : JsError) : JsError
deriving DecidableEq, Repr

/-- Gas-price forecast carried by a `GasPriceData` value
(`fee-optimization` reads `next5Blocks` and `confidence`). -/
structure Forecast where
  nextBlock : ℚ
  next5Blocks : List ℚ
  confidence : ℚ
deriving DecidableEq, Repr

/-- `GasPriceData` — normalized gas-price response of one provider
(part_003 lines 39–53). -/
structure GasPriceData where
  source : String
  currentGwei : ℚ
  fast : ℚ
  standard : ℚ
  safe : ℚ
  baseFee : ℚ
  priorityFee : ℚ
  forecast : Forecast
deriving DecidableEq, Repr

/-- The `route` sub-object of a `DEXRoute` (part_003 lines 60–68).
`amountOut` is a string in the source and is consumed only through
`parseFloat`; we model it by its parse result, `none` meaning `NaN`. -/
structure RouteInfo where
  amountOut : Option ℚ
  gasEstimate : ℚ
deriving DecidableEq, Repr

/-- The `fees` sub-object of a `DEXRoute` (part_003 lines 69–73). -/
structure RouteFees where
  platformFee : ℚ
  networkFee : ℚ
  totalFeeUSD : ℚ
deriving DecidableEq, Repr

/-- `DEXRoute` — normalized route response of one DEX aggregator. -/
structure DEXRoute where
  source : String
  route : RouteInfo
  fees : RouteFees
deriving DecidableEq, Repr

/-- `L2Option` — one L2/bridge alternative (part_003 lines 79–87). -/
structure L2Option where
  source : String
  totalCostUSD : ℚ
deriving DecidableEq, Repr

/-- The comprehensive quote bundle returned by
`APIOrchestrator.getComprehensiveQuote` and consumed by
`analyzeQuoteData`. -/
structure Quote where
  gasData : List GasPriceData
  dexRoutes : List DEXRoute
  l2Options : List L2Option
deriving DecidableEq, Repr

/-- The three possible recommendations of the analysis
(`'execute_now' | 'wait' | 'use_l2'`). -/
inductive Recommendation where
  | execute_now : Recommendation
  | wait : Recommendation
  | use_l2 : Recommendation
deriving DecidableEq, Repr

/-- Savings block of a `SwapAnalysis` (currency is always `'USD'` here). -/
structure SavingsInfo where
  amount : ℚ
  percentage : ℚ
deriving DecidableEq, Repr

/-- Timing block of a `SwapAnalysis`; `waitTime` is `undefined` (`none`)
unless the recommendation is `wait`. -/
structure TimingInfo where
  waitTime : Option ℚ
  confidence : ℚ
deriving DecidableEq, Repr

/-- The `routes.current` block of a `SwapAnalysis`. -/
structure CurrentRoute where
  protocol : String
  cost : ℚ
  gasEstimate : ℚ
deriving DecidableEq, Repr

/-- Execution mode of the optimal route
(`'immediate' | 'delayed' | 'l2'`). -/
inductive ExecutionMode where
  | immediate : ExecutionMode
  | delayed : ExecutionMode
  | l2 : ExecutionMode
deriving DecidableEq, Repr

/-- The `routes.optimal` block of a `SwapAnalysis`. -/
structure OptimalRoute where
  protocol : String
  cost : ℚ
  gasEstimate : ℚ
  execution : ExecutionMode
deriving DecidableEq, Repr

/-- `SwapAnalysis` — the result object built by `analyzeQuoteData`. -/
structure SwapAnalysis where
  recommendation : Recommendation
  savings : SavingsInfo
  timing : TimingInfo
  current : CurrentRoute
  optimal : OptimalRoute
deriving DecidableEq, Repr

/-- JavaScript `a < b` on `parseFloat` results: false whenever either side
is `NaN` (`none`). -/
def jsLtOpt : Option ℚ → Option ℚ → Bool
  | some a, some b => a < b
  | _, _ => false

/-- JavaScript `a > b` on `parseFloat` results. -/
def jsGtOpt (a b : Option ℚ) : Bool :=
  jsLtOpt b a

/-- JavaScript `x || d` for an optional string (`undefined` and the empty
string are falsy). -/
def jsOrString : Option String → String → String
  | some s, d => if s = "" then d else s
  | none, d => d

/-- JavaScript `x || d` for an optional number (`undefined` and `0` are
falsy). -/
def jsOrQ : Option ℚ → ℚ → ℚ
  | some q, d => if q = 0 then d else q
  | none, d => d

/-- `xs.foldl` step selecting the argument with the smaller `f`-value,
keeping the incumbent on ties — the body of every `reduce((best, current)
=> f(current) < f(best) ? current : best)` in the source. -/
def minBy1 {α : Type} (f : α → ℚ) (x : α) (xs : List α) : α :=
  xs.foldl (fun best current => if f current < f best then current else best) x

/-- Best-gas-quote selection of `analyzeQuoteData` (fee-optimization.ts
lines 161–163): lowest `standard`, ties keeping the earlier element. -/
def bestGasOf (g : GasPriceData) (gs : List GasPriceData) : GasPriceData :=
  minBy1 (fun gd => gd.standard) g gs

/-- Best-route selection of `analyzeQuoteData` (fee-optimization.ts lines
167–169): `parseFloat(current.route.amountOut) >
parseFloat(best.route.amountOut) ? current : best`. -/
def bestRouteOf (r : DEXRoute) (rs : List DEXRoute) : DEXRoute :=
  rs.foldl
    (fun best current =>
      if jsGtOpt current.route.amountOut best.route.amountOut then current else best)
    r

/-- Best-L2-option selection (fee-optimization.ts lines 183–187): lowest
`totalCostUSD`. -/
def bestL2Of (o : L2Option) (os : List L2Option) : L2Option :=
  minBy1 (fun x => x.totalCostUSD) o os

/-- One entry of the `forecastCosts` array built by `calculateWaitSavings`
(fee-optimization.ts lines 285–289). -/
structure ForecastCost where
  cost : ℚ
  waitTime : ℚ
  gwei : ℚ
deriving DecidableEq, Repr

/-- The `forecastCosts` array of `calculateWaitSavings`: each of the
forecast rates mapped to a hypothetical cost, a wait time of
`(index + 1) * 12` seconds, and the rate itself. -/
def mkForecastCosts (route : DEXRoute) (blocks : List ℚ) : List ForecastCost :=
  blocks.enum.map fun p =>
    { cost := p.2 * route.route.gasEstimate / 1000000000 * 2000
      waitTime := ((p.1 : ℚ) + 1) * 12
      gwei := p.2 }

/-- The record returned by `calculateWaitSavings` (the `currency` field is
the constant `'USD'` and is omitted). -/
structure WaitSavings where
  amount : ℚ
  percentage : ℚ
  waitTime : ℚ
  confidence : ℚ
deriving DecidableEq, Repr

/-- `FeeOptimizationService.calculateWaitSavings` (fee-optimization.ts
lines 279–304).  The current cost and every hypothetical cost use
`gasData.currentGwei` resp. a forecast rate times the route's gas
estimate, divided by `1e9` and scaled by the fixed `2000` USD/ETH price.
The final `reduce` raises `emptyReduce` when `next5Blocks` is empty. -/
def calculateWaitSavings (gasData : GasPriceData) (route : DEXRoute) :
    Except JsError WaitSavings :=
  let currentCost := gasData.currentGwei * route.route.gasEstimate / 1000000000 * 2000
  match mkForecastCosts route gasData.forecast.next5Blocks with
  | [] => .error .emptyReduce
  | c :: cs =>
    let bestForecast := minBy1 (fun fc => fc.cost) c cs
    .ok
      { amount := max 0 (currentCost - bestForecast.cost)
        percentage := max 0 ((currentCost - bestForecast.cost) / currentCost * 100)
        waitTime := bestForecast.waitTime
        confidence := gasData.forecast.confidence }

/-- `FeeOptimizationService.analyzeQuoteData` (fee-optimization.ts lines
157–255).  The two leading bare `reduce` calls raise `emptyReduce` on an
empty `gasData` or `dexRoutes` array (the source has no explicit emptiness
check); `gasData.reduce` runs first. -/
def analyzeQuoteData (quote : Quote) : Except JsError SwapAnalysis :=
  match quote.gasData, quote.dexRoutes with
  | [], _ => .error .emptyReduce
  | _ :: _, [] => .error .emptyReduce
  | g :: gs, r :: rs =>
    let bestGasData := bestGasOf g gs
    let bestRoute := bestRouteOf r rs
    let currentGasCostETH := bestGasData.currentGwei * bestRoute.route.gasEstimate / 1000000000
    let currentGasCostUSD := currentGasCostETH * 2000
    let currentTotalCostUSD := currentGasCostUSD + bestRoute.fees.totalFeeUSD
    let bestL2Option : Option L2Option :=
      match quote.l2Options with
      | [] => none
      | o :: os => some (bestL2Of o os)
    match calculateWaitSavings bestGasData bestRoute with
    | .error e => .error e
    | .ok forecastSavings =>
      let l2Savings : ℚ :=
        match bestL2Option with
        | some o => currentTotalCostUSD - o.totalCostUSD
        | none => 0
      let decision : Recommendation × SavingsInfo × Option ℚ :=
        if l2Savings > 5 ∧ l2Savings > forecastSavings.amount then
          (.use_l2,
            { amount := l2Savings, percentage := l2Savings / currentTotalCostUSD * 100 },
            none)
        else if forecastSavings.amount > 2 ∧ forecastSavings.confidence > 7 / 10 then
          (.wait,
            { amount := forecastSavings.amount, percentage := forecastSavings.percentage },
            some forecastSavings.waitTime)
        else
          (.execute_now, { amount := 0, percentage := 0 }, none)
      let recommendation := decision.1
      let savings := decision.2.1
      let waitTime := decision.2.2
      .ok
        { recommendation := recommendation
          savings := savings
          timing := { waitTime := waitTime, confidence := forecastSavings.confidence }
          current :=
            { protocol := bestRoute.source
              cost := currentTotalCostUSD
              gasEstimate := bestRoute.route.gasEstimate }
          optimal :=
            { protocol :=
                match recommendation with
                | .use_l2 => jsOrString (bestL2Option.map (fun o => o.source)) bestRoute.source
                | _ => bestRoute.source
              cost :=
                match recommendation with
                | .use_l2 => jsOrQ (bestL2Option.map (fun o => o.totalCostUSD)) currentTotalCostUSD
                | .wait => currentTotalCostUSD - savings.amount
                | .execute_now => currentTotalCostUSD
              gasEstimate := bestRoute.route.gasEstimate
              execution :=
                match recommendation with
                | .execute_now => .immediate
                | .wait => .delayed
                | .use_l2 => .l2 } }

/-- `FeeOptimizationService.analyzeSwap` (fee-optimization.ts lines
99–137), restricted to its analysis step: any error thrown while
analysing the fetched quote is caught and rethrown as
`Error('Fee optimization failed: ...')`. -/
def analyzeSwap (quote : Quote) : Except JsError SwapAnalysis :=
  match analyzeQuoteData quote with
  | .ok a => .ok a
  | .error e => .error (.feeOptimizationFailed e)

/-! ## API orchestrator: cache and gas fan-out (part_003) -/

/-- `cacheTimeout = 30 * 1000` milliseconds (part_003 line 526). -/
def cacheTimeout : ℤ := 30 * 1000

/-- One entry of the orchestrator cache, restricted to the gas key
(`'gas:{}'` — the key is static, so a single optional slot models the
relevant part of the `Map`). -/
structure CacheEntry where
  data : List GasPriceData
  timestamp : ℤ
deriving DecidableEq, Repr

/-- The orchestrator state relevant to `getOptimizedGasData`: the cache
slot for the static gas key. -/
structure OrchestratorState where
  gasCache : Option CacheEntry
deriving DecidableEq, Repr

/-- `APIOrchestrator.getFromCache` (part_003 lines 609–615): return the
stored payload iff an entry exists and `Date.now() - cached.timestamp <
this.cacheTimeout` (strict comparison), else `null`. -/
def getFromCache (st : OrchestratorState) (now : ℤ) : Option (List GasPriceData) :=
  match st.gasCache with
  | some e => if now - e.timestamp < cacheTimeout then some e.data else none
  | none => none

/-- `APIOrchestrator.setCache` (part_003 lines 620–622): overwrite the
slot with the payload stamped at the current time. -/
def setCache (_st : OrchestratorState) (now : ℤ) (data : List GasPriceData) :
    OrchestratorState :=
  { gasCache := some { data := data, timestamp := now } }

/-- The successes extracted from a settled fan-out:
`results.filter(status === 'fulfilled').map(value)` after
`Promise.allSettled` (order preserving). -/
def successes (rs : List (Except JsError GasPriceData)) : List GasPriceData :=
  rs.filterMap fun r =>
    match r with
    | .ok d => some d
    | .error _ => none

/-- `APIOrchestrator.getOptimizedGasData` (part_003 lines 638–662) as a
state-and-time transformer.  `providerResults` is the list of outcomes
the provider fan-out would settle with, one per configured gas service.
Returns the delivered data, the new state, and whether a fan-out was
performed.  Note that the source's `if (cached) return cached;` test is a
null check: `getFromCache` returns the payload array or `null`, and an
array — even an empty one — is truthy in JavaScript, so a cached empty
result is served. -/
def getOptimizedGasData (st : OrchestratorState) (now : ℤ)
    (providerResults : List (Except JsError GasPriceData)) :
    List GasPriceData × OrchestratorState × Bool :=
  match getFromCache st now with
  | some cached => (cached, st, false)
  | none =>
    let gasData := successes providerResults
    (gasData, setCache st now gasData, true)

/-! ## Provider adapter retry loop: `BaseAPIService.makeRequest` -/

/-- Outcome of one `fetch` attempt inside `makeRequest`, as seen by the
`try` block: a 2xx response with a parsed body, a non-2xx response
(`!response.ok`), or a thrown network/parse error. -/
inductive FetchResult (α : Type) where
  | success (data : α) : FetchResult α
  | httpFailure (status : Nat) (statusText : String) : FetchResult α
  | networkFailure (msg : String) : FetchResult α
deriving DecidableEq, Repr

/-- Whether an attempt outcome enters the `catch` branch. -/
def isFailure {α : Type} : FetchResult α → Bool
  | .success _ => false
  | _ => true

/-- The error recorded in `lastError` for a failed attempt: a non-2xx
response is turned into `Error('HTTP ...')` by the explicit `throw` at
part_003 line 188. -/
def attemptError {α : Type} : FetchResult α → JsError
  | .success _ => .networkError ""
  | .httpFailure st stx => .httpError st stx
  | .networkFailure m => .networkError m

/-- `retryAttempts = 3` (part_003 line 132). -/
def retryAttempts : Nat := 3

/-- `rateLimitDelay = 100` milliseconds (part_003 line 131). -/
def rateLimitDelay : Nat := 100

/-- The retry loop of `makeRequest` (part_003 lines 168–208), one level
per remaining attempt.  `outcomes k` is what attempt number `k` would
observe.  Returns the overall result, the list of backoff delays awaited
(in order), and the number of attempts made.  A failed attempt `k` with
attempts remaining waits `rateLimitDelay * k` before the next try; after
the last attempt the loop falls through to
`throw Error(providerUnavailable)` carrying the last error. -/
def makeRequestAux {α : Type} (service : String) (outcomes : Nat → FetchResult α)
    (lastError : JsError) (attempt : Nat) :
    Nat → Except JsError α × List Nat × Nat
  | 0 => (.error (.providerUnavailable service retryAttempts lastError), [], 0)
  | remaining + 1 =>
    match outcomes attempt with
    | .success d => (.ok d, [], 1)
    | o =>
      let rest := makeRequestAux service outcomes (attemptError o) (attempt + 1) remaining
      (rest.1, (if remaining > 0 then [rateLimitDelay * attempt] else []) ++ rest.2.1,
        rest.2.2 + 1)

/-- `BaseAPIService.makeRequest` run against a given environment of
attempt outcomes. -/
def makeRequest {α : Type} (service : String) (outcomes : Nat → FetchResult α) :
    Except JsError α × List Nat × Nat :=
  makeRequestAux service outcomes (.networkError "") 1 retryAttempts

/-- The `currentTotalCostUSD` computed by `analyzeQuoteData` for given
best picks (fee-optimization.ts lines 173–179): gas cost from
`currentGwei`, divided by `1e9`, scaled by the fixed `2000` USD/ETH
price, plus the route's total fee. -/
def currentTotalCostUSDOf (bestGasData : GasPriceData) (bestRoute : DEXRoute) : ℚ :=
  bestGasData.currentGwei * bestRoute.route.gasEstimate / 1000000000 * 2000
    + bestRoute.fees.totalFeeUSD

/-- The `l2Savings` computed by `analyzeQuoteData` (fee-optimization.ts
line 199): difference to the cheapest L2 option, `0` when none exists. -/
def l2SavingsOf (currentTotal : ℚ) : List L2Option → ℚ
  | [] => 0
  | o :: os => currentTotal - (bestL2Of o os).totalCostUSD

/-- Hypothetical cost of executing at the `i`-th forecast rate, as built
into `forecastCosts` by `calculateWaitSavings`. -/
def forecastCostAt (route : DEXRoute) (blocks : List ℚ) (i : Nat) : ℚ :=
  blocks.getD i 0 * route.route.gasEstimate / 1000000000 * 2000

/-! ## General lemmas about the `reduce` selection pattern -/

theorem minBy1_cons {α : Type} (f : α → ℚ) (x a : α) (as : List α) :
    minBy1 f x (a :: as) = minBy1 f (if f a < f x then a else x) as := rfl

/-- The fold result has minimal `f`-value among the initial element and
every folded element. -/
theorem minBy1_le {α : Type} (f : α → ℚ) :
    ∀ (xs : List α) (x : α), ∀ y ∈ x :: xs, f (minBy1 f x xs) ≤ f y := by
  intro xs
  induction xs with
  | nil =>
    intro x y hy
    simp only [List.mem_singleton] at hy
    subst hy
    exact le_refl _
  | cons a as ih =>
    intro x y hy
    rw [minBy1_cons]
    have hzx : f (if f a < f x then a else x) ≤ f x := by
      split
      · exact le_of_lt (by assumption)
      · exact le_refl _
    have hza : f (if f a < f x then a else x) ≤ f a := by
      split
      · exact le_refl _
      · exact le_of_not_lt (by assumption)
    rcases List.mem_cons.mp hy with h1 | h2
    · subst h1
      exact le_trans (ih _ _ (List.mem_cons_self _ _)) hzx
    · rcases List.mem_cons.mp h2 with h3 | h4
      · subst h3
        exact le_trans (ih _ _ (List.mem_cons_self _ _)) hza
      · exact ih _ y (List.mem_cons_of_mem _ h4)

/-- The fold keeps the incumbent on ties, so the result is the
first-encountered element attaining the minimum: the list splits as
`pre ++ result :: post` with every element of `pre` strictly larger. -/
theorem minBy1_first {α : Type} (f : α → ℚ) :
    ∀ (xs : List α) (x : α), ∃ pre post, x :: xs = pre ++ minBy1 f x xs :: post ∧
      ∀ y ∈ pre, f (minBy1 f x xs) < f y := by
  intro xs
  induction xs with
  | nil =>
    intro x
    exact ⟨[], [], rfl, by simp⟩
  | cons a as ih =>
    intro x
    by_cases hax : f a < f x
    · have hstep : minBy1 f x (a :: as) = minBy1 f a as := by
        rw [minBy1_cons, if_pos hax]
      obtain ⟨pre, post, heq, hpre⟩ := ih a
      refine ⟨x :: pre, post, ?_, ?_⟩
      · rw [hstep, List.cons_append, ← heq]
      · intro y hy
        rw [hstep]
        rcases List.mem_cons.mp hy with h1 | h2
        · subst h1
          exact lt_of_le_of_lt (minBy1_le f as a a (List.mem_cons_self _ _)) hax
        · exact hpre y h2
    · have hstep : minBy1 f x (a :: as) = minBy1 f x as := by
        rw [minBy1_cons, if_neg hax]
      obtain ⟨pre, post, heq, hpre⟩ := ih x
      rcases pre with _ | ⟨p, pre₀⟩
      · simp only [List.nil_append] at heq
        have hx : x = minBy1 f x as := (List.cons.injEq _ _ _ _).mp heq |>.1
        have hpost : as = post := (List.cons.injEq _ _ _ _).mp heq |>.2
        refine ⟨[], a :: as, ?_, by simp⟩
        rw [hstep, List.nil_append, ← hx]
      · have hpx : x = p := ((List.cons.injEq _ _ _ _).mp heq).1
        have htail : as = pre₀ ++ minBy1 f x as :: post :=
          ((List.cons.injEq _ _ _ _).mp heq).2
        subst hpx
        refine ⟨x :: a :: pre₀, post, ?_, ?_⟩
        · rw [hstep]
          simp only [List.cons_append]
          rw [← htail]
        · intro y hy
          rw [hstep]
          have hmx : f (minBy1 f x as) < f x :=
            hpre x (List.mem_cons_self _ _)
          rcases List.mem_cons.mp hy with h1 | h2
          · subst h1; exact hmx
          · rcases List.mem_cons.mp h2 with h3 | h4
            · subst h3
              exact lt_of_lt_of_le hmx (le_of_not_lt hax)
            · exact hpre y (List.mem_cons_of_mem _ h4)

theorem mkForecastCosts_length (route : DEXRoute) (blocks : List ℚ) :
    (mkForecastCosts route blocks).length = blocks.length := by
  simp [mkForecastCosts]

theorem mkForecastCosts_getElem (route : DEXRoute) (blocks : List ℚ) (i : Nat)
    (h : i < blocks.length) :
    (mkForecastCosts route blocks).get ⟨i, by rw [mkForecastCosts_length]; exact h⟩ =
      { cost := forecastCostAt route blocks i
        waitTime := ((i : ℚ) + 1) * 12
        gwei := blocks.get ⟨i, h⟩ } := by
  simp [mkForecastCosts, forecastCostAt, List.getElem?_eq_getElem h]

/-- If every provider result is a failure, the extracted success set is
empty. -/
theorem successes_eq_nil (rs : List (Except JsError GasPriceData))
    (h : ∀ r ∈ rs, ∃ e, r = .error e) : successes rs = [] := by
  rw [successes, List.filterMap_eq_nil_iff]
  intro r hr
  obtain ⟨e, he⟩ := h r hr
  subst he
  rfl

theorem bestRouteOf_cons (r x : DEXRoute) (xs : List DEXRoute) :
    bestRouteOf r (x :: xs) =
      bestRouteOf (if jsGtOpt x.route.amountOut r.route.amountOut then x else r) xs := rfl

theorem jsGtOpt_eq (a b : Option ℚ) : jsGtOpt a b = jsLtOpt b a := rfl

theorem jsLtOpt_none_left (b : Option ℚ) : jsLtOpt none b = false := by cases b <;> rfl

theorem jsLtOpt_none_right (a : Option ℚ) : jsLtOpt a none = false := by cases a <;> rfl

theorem jsLtOpt_some_some (a b : ℚ) : jsLtOpt (some a) (some b) = decide (a < b) := rfl

/-- The `amount` returned by `calculateWaitSavings` is clamped to be
non-negative by the `Math.max(0, ...)` in the source. -/
theorem waitSavings_amount_nonneg (gd : GasPriceData) (rt : DEXRoute) (w : WaitSavings)
    (h : calculateWaitSavings gd rt = .ok w) : 0 ≤ w.amount := by
  rw [calculateWaitSavings] at h
  rcases hm : mkForecastCosts rt gd.forecast.next5Blocks with _ | ⟨c, cs⟩
  · rw [hm] at h
    cases h
  · rw [hm] at h
    simp only [Except.ok.injEq] at h
    subst h
    exact le_max_left _ _

theorem get_append_len {α : Type} (l pre post : List α) (m : α)
    (heq : l = pre ++ m :: post) (h : pre.length < l.length) :
    l.get ⟨pre.length, h⟩ = m := by
  subst heq
  simp [List.get_eq_getElem, List.getElem_append_right (le_refl pre.length)]

theorem get_append_lt {α : Type} (l pre post : List α) (m : α)
    (heq : l = pre ++ m :: post) (j : Nat) (hj : j < pre.length) (h : j < l.length) :
    l.get ⟨j, h⟩ = pre.get ⟨j, hj⟩ := by
  subst heq
  simp [List.get_eq_getElem, List.getElem_append_left hj]

theorem makeRequestAux_zero {α : Type} (service : String) (outcomes : Nat → FetchResult α)
    (lastError : JsError) (attempt : Nat) :
    makeRequestAux service outcomes lastError attempt 0 =
      (.error (.providerUnavailable service retryAttempts lastError), [], 0) := rfl

theorem makeRequestAux_success {α : Type} (service : String) (outcomes : Nat → FetchResult α)
    (lastError : JsError) (attempt : Nat) (remaining : Nat) (d : α)
    (h : outcomes attempt = .success d) :
    makeRequestAux service outcomes lastError attempt (remaining + 1) = (.ok d, [], 1) := by
  rw [makeRequestAux, h]

theorem makeRequestAux_fail {α : Type} (service : String) (outcomes : Nat → FetchResult α)
    (lastError : JsError) (attempt : Nat) (remaining : Nat)
    (h : isFailure (outcomes attempt) = true) :
    makeRequestAux service outcomes lastError attempt (remaining + 1) =
      ((makeRequestAux service outcomes (attemptError (outcomes attempt)) (attempt + 1) remaining).1,
        (if remaining > 0 then [rateLimitDelay * attempt] else []) ++
          (makeRequestAux service outcomes (attemptError (outcomes attempt)) (attempt + 1) remaining).2.1,
        (makeRequestAux service outcomes (attemptError (outcomes attempt)) (attempt + 1) remaining).2.2 + 1) := by
  rcases ho : outcomes attempt with d | ⟨st, stx⟩ | m
  · rw [ho] at h
    simp [isFailure] at h
  · rw [makeRequestAux, ho]
  · rw [makeRequestAux, ho]

/-- With at least one attempt remaining, the loop makes at least one
attempt. -/
theorem makeRequestAux_low {α : Type} (service : String) (outcomes : Nat → FetchResult α) :
    ∀ (l : JsError) (a n : Nat), 1 ≤ n → 1 ≤ (makeRequestAux service outcomes l a n).2.2 := by
  intro l a n hn
  rcases n with _ | n
  · omega
  rcases ho : outcomes a with d | ⟨st, stx⟩ | m
  · rw [makeRequestAux_success service outcomes l a n d ho]
  · rw [makeRequestAux_fail service outcomes l a n (by rw [ho]; rfl)]
    dsimp only
    omega
  · rw [makeRequestAux_fail service outcomes l a n (by rw [ho]; rfl)]
    dsimp only
    omega

/-! ## Concrete sample data

Quotes used by scenario conjuncts, witnesses, and counterexamples.
`bridgeGas`/`sampleRoute`/`bridgeL2` realise the spec's "clear bridge win"
scenario (standard = current rate = 50 gwei, 200000 gas units, $5 route
fee, $8 L2 cost); `waitGas` realises the "clear wait win" scenario
(rate 80, forecast 78/70/60/55/50); `divergeGas` is a quote whose
`standard` and `currentGwei` rates differ (50 vs 100); `nanRoute` has an
unparseable `amountOut`. -/

def bridgeGas : GasPriceData :=
  { source := "Blocknative", currentGwei := 50, fast := 60, standard := 50, safe := 40,
    baseFee := 30, priorityFee := 2,
    forecast := { nextBlock := 50, next5Blocks := [50, 50, 50, 50, 50], confidence := 9 / 10 } }

def sampleRoute : DEXRoute :=
  { source := "1inch", route := { amountOut := some 1, gasEstimate := 200000 },
    fees := { platformFee := 0, networkFee := 0, totalFeeUSD := 5 } }

def bridgeL2 : L2Option := { source := "LI.FI", totalCostUSD := 8 }

def divergeGas : GasPriceData :=
  { source := "Blocknative", currentGwei := 100, fast := 110, standard := 50, safe := 40,
    baseFee := 30, priorityFee := 2,
    forecast := { nextBlock := 50, next5Blocks := [50, 50, 50, 50, 50], confidence := 9 / 10 } }

def waitGas : GasPriceData :=
  { source := "Blocknative", currentGwei := 80, fast := 90, standard := 80, safe := 70,
    baseFee := 60, priorityFee := 2,
    forecast := { nextBlock := 78, next5Blocks := [78, 70, 60, 55, 50], confidence := 9 / 10 } }

def nanRoute : DEXRoute :=
  { source := "ParaSwap", route := { amountOut := none, gasEstimate := 150000 },
    fees := { platformFee := 0, networkFee := 0, totalFeeUSD := 3 } }

/-- The analysis produced on the bridge-win scenario bundle. -/
def scenarioAnalysis : SwapAnalysis :=
  ⟨.use_l2, ⟨17, 68⟩, ⟨none, 9 / 10⟩, ⟨"1inch", 25, 200000⟩, ⟨"LI.FI", 8, 200000, .l2⟩⟩

/-- The wait-savings record produced on the bridge-win scenario (flat
forecast, so zero wait savings and the first block as minimum). -/
def scenarioWait : WaitSavings := ⟨0, 0, 12, 9 / 10⟩

/-! ## Claim theorems -/

/-- C1 (amended): for every quote bundle with a non-empty gas-quote set
and route-quote set (and a successful wait-savings computation, which the
source performs unconditionally), the current cost computed by
`analyzeQuoteData` equals (best gas quote's **current rate**
(`currentGwei`) × best route's gas-unit estimate) / 1e9 × 2000 + best
route's `totalFeeUSD` — the source uses `currentGwei`, not the
`standard` rate named by the claim.  In particular, on the bridge-win
scenario bundle (where the quote's current rate is also 50), the current
cost is 25 USD and the single L2 option with `totalCostUSD = 8` yields
recommendation `use_l2` with savings 17. -/
theorem c1_current_cost_uses_current_rate :
    (∀ (g : GasPriceData) (gs : List GasPriceData) (r : DEXRoute) (rs : List DEXRoute)
        (l2s : List L2Option) (w : WaitSavings),
      calculateWaitSavings (bestGasOf g gs) (bestRouteOf r rs) = .ok w →
      ∃ a, analyzeQuoteData ⟨g :: gs, r :: rs, l2s⟩ = .ok a ∧
        a.current.cost = currentTotalCostUSDOf (bestGasOf g gs) (bestRouteOf r rs)) ∧
    analyzeQuoteData ⟨[bridgeGas], [sampleRoute], [bridgeL2]⟩ = .ok scenarioAnalysis := by
  constructor
  · intro g gs r rs l2s w hw
    simp only [analyzeQuoteData, hw]
    exact ⟨_, rfl, rfl⟩
  · norm_num [analyzeQuoteData, bestGasOf, bestRouteOf, bestL2Of, minBy1,
      calculateWaitSavings, mkForecastCosts, List.enum, List.enumFrom,
      bridgeGas, sampleRoute, bridgeL2, jsOrString, jsOrQ, scenarioAnalysis]
    exact fun h => absurd h (by decide)

/-- C1 witness: the general conjunct applied to the bridge-win scenario
bundle. -/
theorem c1_witness :
    ∃ a, analyzeQuoteData ⟨[bridgeGas], [sampleRoute], [bridgeL2]⟩ = .ok a ∧
      a.current.cost = currentTotalCostUSDOf (bestGasOf bridgeGas [])
        (bestRouteOf sampleRoute []) :=
  c1_current_cost_uses_current_rate.1 bridgeGas [] sampleRoute [] [bridgeL2] scenarioWait
    (by norm_num [bestGasOf, bestRouteOf, minBy1, calculateWaitSavings, mkForecastCosts,
      List.enum, List.enumFrom, bridgeGas, sampleRoute, scenarioWait])

/-- C1 counterexample: on a bundle whose best gas quote has
`standard = 50` but `currentGwei = 100` (route: 200000 gas units, $5
fee), the code reports a current cost of 45 USD while the claim's
`standardRate`-based formula yields 25 USD. -/
theorem c1_counterexample :
    (analyzeQuoteData ⟨[divergeGas], [sampleRoute], [bridgeL2]⟩).toOption.map
      (fun a => a.current.cost) = some 45 ∧
    divergeGas.standard * sampleRoute.route.gasEstimate / 1000000000 * 2000
      + sampleRoute.fees.totalFeeUSD = 25 ∧
    (45 : ℚ) ≠ 25 := by
  refine ⟨?_, by norm_num [divergeGas, sampleRoute], by norm_num⟩
  norm_num [analyzeQuoteData, bestGasOf, bestRouteOf, bestL2Of, minBy1,
    calculateWaitSavings, mkForecastCosts, List.enum, List.enumFrom,
    divergeGas, sampleRoute, bridgeL2, jsOrString, jsOrQ, Except.toOption]

/-- C2 (amended): for every quote bundle with an empty gas-quote set or
an empty route-quote set, the analysis fails before any further
computation, but with the untyped runtime error raised by reducing an
empty array (wrapped by `analyzeSwap` into its generic
`Fee optimization failed` error) — not with a typed `InsufficientData`
error, which does not exist in the source. -/
theorem c2_empty_sets_untyped_error (quote : Quote)
    (h : quote.gasData = [] ∨ quote.dexRoutes = []) :
    analyzeSwap quote = .error (.feeOptimizationFailed .emptyReduce) := by
  obtain ⟨gd, dr, l2s⟩ := quote
  rcases h with h | h
  · subst h
    rfl
  · subst h
    rcases gd with _ | ⟨g, gs⟩ <;> rfl

/-- C2 witness: the theorem applied to a bundle with no gas quotes. -/
theorem c2_witness :
    analyzeSwap ⟨[], [sampleRoute], []⟩ = .error (.feeOptimizationFailed .emptyReduce) :=
  c2_empty_sets_untyped_error ⟨[], [sampleRoute], []⟩ (Or.inl rfl)

/-- C2 counterexample: on a bundle with no gas quotes the error surfaced
is the wrapped empty-reduce runtime error, not `InsufficientData` (with
or without the wrapper). -/
theorem c2_counterexample :
    analyzeSwap ⟨[], [sampleRoute], []⟩ = .error (.feeOptimizationFailed .emptyReduce) ∧
    analyzeSwap ⟨[], [sampleRoute], []⟩ ≠ .error .insufficientData ∧
    analyzeSwap ⟨[], [sampleRoute], []⟩ ≠ .error (.feeOptimizationFailed .insufficientData) := by
  refine ⟨rfl, ?_, ?_⟩
  · intro h
    exact JsError.noConfusion (Except.error.inj h)
  · intro h
    have h2 := Except.error.inj h
    cases h2

/-- C3 (confirmed): on every bundle with at least one gas quote and one
route quote on which the analysis succeeds, the decision rule holds in
strict priority order: the recommendation is `use_l2` iff an L2 option
exists, its savings exceed $5, and exceed the wait savings (with savings
amount = L2 savings and percent = savings / current cost × 100);
otherwise it is `wait` iff wait savings exceed $2 and the forecast
confidence exceeds 0.7 (with savings = wait savings and the forecast's
wait time); otherwise it is `execute_now` with savings 0. -/
theorem c3_decision_rule_priority (g : GasPriceData) (gs : List GasPriceData) (r : DEXRoute)
    (rs : List DEXRoute) (l2s : List L2Option) (w : WaitSavings) (a : SwapAnalysis)
    (ctc L : ℚ)
    (hw : calculateWaitSavings (bestGasOf g gs) (bestRouteOf r rs) = .ok w)
    (hok : analyzeQuoteData ⟨g :: gs, r :: rs, l2s⟩ = .ok a)
    (hctc : ctc = currentTotalCostUSDOf (bestGasOf g gs) (bestRouteOf r rs))
    (hL : L = l2SavingsOf ctc l2s) :
    (a.recommendation = .use_l2 ↔ l2s ≠ [] ∧ L > 5 ∧ L > w.amount) ∧
    (a.recommendation = .use_l2 →
      a.savings.amount = L ∧ a.savings.percentage = L / ctc * 100) ∧
    (a.recommendation = .wait ↔
      ¬(L > 5 ∧ L > w.amount) ∧ w.amount > 2 ∧ w.confidence > 7 / 10) ∧
    (a.recommendation = .wait →
      a.savings.amount = w.amount ∧ a.timing.waitTime = some w.waitTime) ∧
    (a.recommendation = .execute_now ↔
      ¬(L > 5 ∧ L > w.amount) ∧ ¬(w.amount > 2 ∧ w.confidence > 7 / 10)) ∧
    (a.recommendation = .execute_now → a.savings.amount = 0) := by
  subst hctc hL
  rcases l2s with _ | ⟨o, os⟩
  · simp only [analyzeQuoteData, hw, l2SavingsOf, currentTotalCostUSDOf] at hok ⊢
    have h5 : ¬((0:ℚ) > 5 ∧ (0:ℚ) > w.amount) := by
      rintro ⟨h, -⟩
      exact absurd h (by norm_num)
    rw [if_neg h5] at hok
    by_cases h2 : w.amount > 2 ∧ w.confidence > 7 / 10
    · rw [if_pos h2] at hok
      simp only [Except.ok.injEq] at hok
      subst hok
      simp [h5, h2]
    · rw [if_neg h2] at hok
      simp only [Except.ok.injEq] at hok
      subst hok
      simp [h5, h2]
  · simp only [analyzeQuoteData, hw, l2SavingsOf, currentTotalCostUSDOf, bestL2Of] at hok ⊢
    by_cases h5 : (bestGasOf g gs).currentGwei * (bestRouteOf r rs).route.gasEstimate / 1000000000 * 2000 +
        (bestRouteOf r rs).fees.totalFeeUSD - (minBy1 (fun x => x.totalCostUSD) o os).totalCostUSD > 5 ∧
        (bestGasOf g gs).currentGwei * (bestRouteOf r rs).route.gasEstimate / 1000000000 * 2000 +
        (bestRouteOf r rs).fees.totalFeeUSD - (minBy1 (fun x => x.totalCostUSD) o os).totalCostUSD > w.amount
    · rw [if_pos h5] at hok
      simp only [Except.ok.injEq] at hok
      subst hok
      simp [h5]
    · rw [if_neg h5] at hok
      by_cases h2 : w.amount > 2 ∧ w.confidence > 7 / 10
      · rw [if_pos h2] at hok
        simp only [Except.ok.injEq] at hok
        subst hok
        simp [h5, h2]
      · rw [if_neg h2] at hok
        simp only [Except.ok.injEq] at hok
        subst hok
        simp [h5, h2]

/-- C3 witness: the decision rule instantiated on the bridge-win
scenario bundle. -/
theorem c3_witness :
    (scenarioAnalysis.recommendation = .use_l2 ↔
      [bridgeL2] ≠ [] ∧ (17:ℚ) > 5 ∧ (17:ℚ) > scenarioWait.amount) ∧
    (scenarioAnalysis.recommendation = .use_l2 →
      scenarioAnalysis.savings.amount = 17 ∧
      scenarioAnalysis.savings.percentage = 17 / 25 * 100) ∧
    (scenarioAnalysis.recommendation = .wait ↔
      ¬((17:ℚ) > 5 ∧ (17:ℚ) > scenarioWait.amount) ∧ scenarioWait.amount > 2 ∧
        scenarioWait.confidence > 7 / 10) ∧
    (scenarioAnalysis.recommendation = .wait →
      scenarioAnalysis.savings.amount = scenarioWait.amount ∧
      scenarioAnalysis.timing.waitTime = some scenarioWait.waitTime) ∧
    (scenarioAnalysis.recommendation = .execute_now ↔
      ¬((17:ℚ) > 5 ∧ (17:ℚ) > scenarioWait.amount) ∧
      ¬(scenarioWait.amount > 2 ∧ scenarioWait.confidence > 7 / 10)) ∧
    (scenarioAnalysis.recommendation = .execute_now → scenarioAnalysis.savings.amount = 0) :=
  c3_decision_rule_priority bridgeGas [] sampleRoute [] [bridgeL2] scenarioWait
    scenarioAnalysis 25 17
    (by norm_num [bestGasOf, bestRouteOf, minBy1, calculateWaitSavings, mkForecastCosts,
      List.enum, List.enumFrom, bridgeGas, sampleRoute, scenarioWait])
    (by
      norm_num [analyzeQuoteData, bestGasOf, bestRouteOf, bestL2Of, minBy1,
        calculateWaitSavings, mkForecastCosts, List.enum, List.enumFrom,
        bridgeGas, sampleRoute, bridgeL2, jsOrString, jsOrQ, scenarioAnalysis]
      exact fun h => absurd h (by decide))
    (by norm_num [currentTotalCostUSDOf, bestGasOf, bestRouteOf, minBy1, bridgeGas, sampleRoute])
    (by norm_num [l2SavingsOf, bestL2Of, minBy1, bridgeL2])

/-- C4 (amended): for every best gas quote with exactly 5 forecast rates,
the wait-savings computation substitutes each forecast rate (index
i = 0..4) for the **current rate** (`currentGwei`, not `standardRate`) in
the gas-cost formula, takes the minimum hypothetical cost (ties resolved
to the earliest index), sets the amount to
max(0, currentCost − minForecastCost), the wait time to
(indexOfMin + 1) × 12, and passes the forecast confidence through
unchanged; with rates [78, 70, 60, 55, 50] the minimum is at index 4 and
the wait time is 60. -/
theorem c4_wait_savings_forecast :
    (∀ (gasData : GasPriceData) (route : DEXRoute),
      gasData.forecast.next5Blocks.length = 5 →
      ∃ (w : WaitSavings) (i : Nat), calculateWaitSavings gasData route = .ok w ∧ i < 5 ∧
        w.waitTime = ((i : ℚ) + 1) * 12 ∧
        w.amount = max 0
          (gasData.currentGwei * route.route.gasEstimate / 1000000000 * 2000
            - forecastCostAt route gasData.forecast.next5Blocks i) ∧
        (∀ j, j < 5 → forecastCostAt route gasData.forecast.next5Blocks i ≤
          forecastCostAt route gasData.forecast.next5Blocks j) ∧
        (∀ j, j < i → forecastCostAt route gasData.forecast.next5Blocks i <
          forecastCostAt route gasData.forecast.next5Blocks j) ∧
        w.confidence = gasData.forecast.confidence) ∧
    calculateWaitSavings waitGas sampleRoute =
      .ok { amount := 12, percentage := 75 / 2, waitTime := 60, confidence := 9 / 10 } := by
  constructor
  · intro gasData route h5
    rcases hL : mkForecastCosts route gasData.forecast.next5Blocks with _ | ⟨c, cs⟩
    · have := congrArg List.length hL
      rw [mkForecastCosts_length, h5] at this
      cases this
    obtain ⟨pre, post, heq, hpre⟩ := minBy1_first (fun fc => fc.cost) cs c
    have heqL : mkForecastCosts route gasData.forecast.next5Blocks =
        pre ++ minBy1 (fun fc => fc.cost) c cs :: post := hL.trans heq
    have hlc := congrArg List.length heqL
    simp only [List.length_append, List.length_cons, mkForecastCosts_length] at hlc
    have hi5 : pre.length < 5 := by omega
    have hib : pre.length < gasData.forecast.next5Blocks.length := by omega
    have hibL : pre.length < (mkForecastCosts route gasData.forecast.next5Blocks).length := by
      rw [mkForecastCosts_length]
      exact hib
    have hgetm : (mkForecastCosts route gasData.forecast.next5Blocks).get ⟨pre.length, hibL⟩ =
        minBy1 (fun fc => fc.cost) c cs :=
      get_append_len _ pre post _ heqL hibL
    have hmrec : minBy1 (fun fc => fc.cost) c cs =
        { cost := forecastCostAt route gasData.forecast.next5Blocks pre.length
          waitTime := ((pre.length : ℚ) + 1) * 12
          gwei := gasData.forecast.next5Blocks.get ⟨pre.length, hib⟩ } := by
      rw [← hgetm]
      exact mkForecastCosts_getElem route gasData.forecast.next5Blocks pre.length hib
    refine ⟨⟨max 0 (gasData.currentGwei * route.route.gasEstimate / 1000000000 * 2000 - (minBy1 (fun fc => fc.cost) c cs).cost), max 0 ((gasData.currentGwei * route.route.gasEstimate / 1000000000 * 2000 - (minBy1 (fun fc => fc.cost) c cs).cost) / (gasData.currentGwei * route.route.gasEstimate / 1000000000 * 2000) * 100), (minBy1 (fun fc => fc.cost) c cs).waitTime, gasData.forecast.confidence⟩, pre.length, ?_, hi5, ?_, ?_, ?_, ?_, rfl⟩
    · rw [calculateWaitSavings, hL]
    · show (minBy1 (fun fc => fc.cost) c cs).waitTime = _
      rw [hmrec]
    · show max 0 _ = max 0 _
      rw [hmrec]
    · intro j hj
      have hjb : j < gasData.forecast.next5Blocks.length := by omega
      have hjL : j < (mkForecastCosts route gasData.forecast.next5Blocks).length := by
        rw [mkForecastCosts_length]
        exact hjb
      have hmem : (mkForecastCosts route gasData.forecast.next5Blocks).get ⟨j, hjL⟩ ∈ c :: cs := by
        rw [← hL]
        exact List.get_mem _ _ _
      have hle := minBy1_le (fun fc => fc.cost) cs c _ hmem
      have hjrec := mkForecastCosts_getElem route gasData.forecast.next5Blocks j hjb
      rw [hjrec, hmrec] at hle
      exact hle
    · intro j hj
      have hjb : j < gasData.forecast.next5Blocks.length := by omega
      have hjL : j < (mkForecastCosts route gasData.forecast.next5Blocks).length := by
        rw [mkForecastCosts_length]
        exact hjb
      have hmem : (mkForecastCosts route gasData.forecast.next5Blocks).get ⟨j, hjL⟩ ∈ pre := by
        rw [get_append_lt _ pre post _ heqL j hj hjL]
        exact List.get_mem _ _ _
      have hlt := hpre _ hmem
      have hjrec := mkForecastCosts_getElem route gasData.forecast.next5Blocks j hjb
      rw [hjrec] at hlt
      rw [hmrec] at hlt
      exact hlt
  · norm_num [calculateWaitSavings, waitGas, sampleRoute, mkForecastCosts, List.enum,
      List.enumFrom, minBy1]

/-- C4 witness: the general conjunct applied to the wait-win scenario
quote. -/
theorem c4_witness :
    ∃ (w : WaitSavings) (i : Nat), calculateWaitSavings waitGas sampleRoute = .ok w ∧ i < 5 ∧
      w.waitTime = ((i : ℚ) + 1) * 12 ∧
      w.amount = max 0
        (waitGas.currentGwei * sampleRoute.route.gasEstimate / 1000000000 * 2000
          - forecastCostAt sampleRoute waitGas.forecast.next5Blocks i) ∧
      (∀ j, j < 5 → forecastCostAt sampleRoute waitGas.forecast.next5Blocks i ≤
        forecastCostAt sampleRoute waitGas.forecast.next5Blocks j) ∧
      (∀ j, j < i → forecastCostAt sampleRoute waitGas.forecast.next5Blocks i <
        forecastCostAt sampleRoute waitGas.forecast.next5Blocks j) ∧
      w.confidence = waitGas.forecast.confidence :=
  c4_wait_savings_forecast.1 waitGas sampleRoute rfl

/-- C4 counterexample: on a gas quote with `standard = 50`,
`currentGwei = 100` and a flat forecast of 50, the code reports wait
savings of 20 USD while the claim's `standardRate`-based substitution
yields 0. -/
theorem c4_counterexample :
    (calculateWaitSavings divergeGas sampleRoute).toOption.map (fun w => w.amount) = some 20 ∧
    max 0 (divergeGas.standard * sampleRoute.route.gasEstimate / 1000000000 * 2000
      - 50 * sampleRoute.route.gasEstimate / 1000000000 * 2000) = 0 ∧
    (20 : ℚ) ≠ 0 := by
  refine ⟨?_, by norm_num [divergeGas, sampleRoute], by norm_num⟩
  norm_num [calculateWaitSavings, mkForecastCosts, List.enum, List.enumFrom, minBy1,
    divergeGas, sampleRoute, Except.toOption]

/-- C5 (amended): the best-route `reduce` never lets a quote with
unparseable `amountOut` replace the incumbent best (NaN comparisons are
always false), so unparseable quotes other than the first-encountered one
are excluded and, when the first quote parses, the selection is a
parseable quote of maximal `amountOut`; but when the **first** quote's
`amountOut` is unparseable, that quote itself remains selected for the
whole pass.  A parse failure never causes the call to fail (there is no
`InsufficientData` path for it). -/
theorem c5_unparseable_amount_out (r : DEXRoute) (rs : List DEXRoute) :
    (r.route.amountOut = none → bestRouteOf r rs = r) ∧
    (∀ v, r.route.amountOut = some v →
      ∃ u, (bestRouteOf r rs).route.amountOut = some u ∧ v ≤ u ∧
        ∀ y ∈ r :: rs, ∀ w, y.route.amountOut = some w → w ≤ u) := by
  constructor
  · intro hnone
    induction rs generalizing r with
    | nil => rfl
    | cons x xs ih =>
      rw [bestRouteOf_cons, hnone, jsGtOpt_eq, jsLtOpt_none_left, if_neg (by decide)]
      exact ih r hnone
  · intro v hv
    induction rs generalizing r v with
    | nil =>
      refine ⟨v, hv, le_refl v, ?_⟩
      intro y hy w hw
      simp only [List.mem_singleton] at hy
      subst hy
      rw [hv] at hw
      cases hw
      exact le_refl _
    | cons x xs ih =>
      rw [bestRouteOf_cons]
      cases hx : x.route.amountOut with
      | none =>
        rw [jsGtOpt_eq, jsLtOpt_none_right, if_neg (by decide)]
        obtain ⟨u, hu, hvu, hall⟩ := ih r v hv
        refine ⟨u, hu, hvu, ?_⟩
        intro y hy w hw
        rcases List.mem_cons.mp hy with h1 | h2
        · exact hall y (h1 ▸ List.mem_cons_self _ _) w hw
        · rcases List.mem_cons.mp h2 with h3 | h4
          · subst h3
            rw [hx] at hw
            cases hw
          · exact hall y (List.mem_cons_of_mem _ h4) w hw
      | some wx =>
        rw [hv, jsGtOpt_eq, jsLtOpt_some_some]
        by_cases hcmp : v < wx
        · rw [if_pos (by exact decide_eq_true hcmp)]
          obtain ⟨u, hu, hvu, hall⟩ := ih x wx hx
          refine ⟨u, hu, le_trans (le_of_lt hcmp) hvu, ?_⟩
          intro y hy w hw
          rcases List.mem_cons.mp hy with h1 | h2
          · subst h1
            rw [hv] at hw
            cases hw
            exact le_trans (le_of_lt hcmp) hvu
          · exact hall y h2 w hw
        · rw [if_neg (by simp [hcmp])]
          obtain ⟨u, hu, hvu, hall⟩ := ih r v hv
          refine ⟨u, hu, hvu, ?_⟩
          intro y hy w hw
          rcases List.mem_cons.mp hy with h1 | h2
          · exact hall y (h1 ▸ List.mem_cons_self _ _) w hw
          · rcases List.mem_cons.mp h2 with h3 | h4
            · subst h3
              rw [hx] at hw
              cases hw
              exact le_trans (le_of_not_lt hcmp) hvu
            · exact hall y (List.mem_cons_of_mem _ h4) w hw

/-- C5 witness: with a parseable first route, the selection is parseable
and maximal among parseable quotes. -/
theorem c5_witness :
    ∃ u, (bestRouteOf sampleRoute [nanRoute]).route.amountOut = some u ∧ 1 ≤ u ∧
      ∀ y ∈ sampleRoute :: [nanRoute], ∀ w, y.route.amountOut = some w → w ≤ u :=
  (c5_unparseable_amount_out sampleRoute [nanRoute]).2 1 rfl

/-- C5 counterexample: when the first route quote's `amountOut` is
unparseable, the selection keeps that quote even though a parseable
quote follows — the unparseable quote is not excluded. -/
theorem c5_counterexample :
    bestRouteOf nanRoute [sampleRoute] = nanRoute ∧
    nanRoute.route.amountOut = none ∧
    sampleRoute.route.amountOut = some 1 :=
  ⟨rfl, rfl, rfl⟩

/-- C6 (confirmed): on every non-empty gas-quote list the selected quote
has `standard` rate ≤ every member's, and the list splits as
`pre ++ selected :: post` with every quote in `pre` of strictly greater
`standard` rate — i.e. on ties the first-encountered minimum is
selected. -/
theorem c6_best_gas_lowest_standard (g : GasPriceData) (gs : List GasPriceData) :
    (∀ y ∈ g :: gs, (bestGasOf g gs).standard ≤ y.standard) ∧
    ∃ pre post, g :: gs = pre ++ bestGasOf g gs :: post ∧
      ∀ y ∈ pre, (bestGasOf g gs).standard < y.standard := by
  constructor
  · intro y hy
    exact minBy1_le (fun gd => gd.standard) gs g y hy
  · exact minBy1_first (fun gd => gd.standard) gs g

/-- Two gas quotes sharing the minimum `standard` rate (tie-break
check data for the gas selection). -/
def gasTieA : GasPriceData :=
  { source := "Blocknative", currentGwei := 40, fast := 50, standard := 40, safe := 30,
    baseFee := 20, priorityFee := 2,
    forecast := { nextBlock := 40, next5Blocks := [40, 40, 40, 40, 40], confidence := 85 / 100 } }

def gasTieB : GasPriceData :=
  { source := "Infura", currentGwei := 40, fast := 50, standard := 40, safe := 30,
    baseFee := 20, priorityFee := 2,
    forecast := { nextBlock := 38, next5Blocks := [38, 36, 34, 33, 33], confidence := 75 / 100 } }

/-- C6 witness: the selection property instantiated on a two-element
tie. -/
theorem c6_witness :
    (∀ y ∈ gasTieA :: [gasTieB], (bestGasOf gasTieA [gasTieB]).standard ≤ y.standard) ∧
    ∃ pre post, gasTieA :: [gasTieB] = pre ++ bestGasOf gasTieA [gasTieB] :: post ∧
      ∀ y ∈ pre, (bestGasOf gasTieA [gasTieB]).standard < y.standard :=
  c6_best_gas_lowest_standard gasTieA [gasTieB]

/-- C7 (confirmed): a cached gas entry is served iff its age
`now − storedAt` is strictly below the 30-second TTL; two calls within
the TTL window (no intervening eviction) return the identical set with
exactly one fan-out (the first call's); a call strictly after
`storedAt + TTL` performs a fresh fan-out, stores it, and never serves
the expired entry. -/
theorem c7_cache_ttl :
    (∀ (st : OrchestratorState) (now : ℤ) (rs : List (Except JsError GasPriceData)),
      (getOptimizedGasData st now rs).2.2 = false ↔
        ∃ e, st.gasCache = some e ∧ now - e.timestamp < cacheTimeout) ∧
    (∀ (st : OrchestratorState) (now : ℤ) (rs : List (Except JsError GasPriceData))
        (e : CacheEntry), st.gasCache = some e → now - e.timestamp < cacheTimeout →
      getOptimizedGasData st now rs = (e.data, st, false)) ∧
    (∀ (t1 t2 : ℤ) (rs1 rs2 : List (Except JsError GasPriceData)), t2 - t1 < cacheTimeout →
      (getOptimizedGasData (getOptimizedGasData ⟨none⟩ t1 rs1).2.1 t2 rs2).1 =
        (getOptimizedGasData ⟨none⟩ t1 rs1).1 ∧
      (getOptimizedGasData ⟨none⟩ t1 rs1).2.2 = true ∧
      (getOptimizedGasData (getOptimizedGasData ⟨none⟩ t1 rs1).2.1 t2 rs2).2.2 = false) ∧
    (∀ (st : OrchestratorState) (now : ℤ) (rs : List (Except JsError GasPriceData))
        (e : CacheEntry), st.gasCache = some e → e.timestamp + cacheTimeout < now →
      getOptimizedGasData st now rs =
        (successes rs, setCache st now (successes rs), true)) := by
  refine ⟨?_, ?_, ?_, ?_⟩
  · intro st now rs
    obtain ⟨c⟩ := st
    rcases c with _ | ⟨e⟩
    · simp [getOptimizedGasData, getFromCache]
    · by_cases h : now - e.timestamp < cacheTimeout
      · simp [getOptimizedGasData, getFromCache, h]
      · simp [getOptimizedGasData, getFromCache, h]
  · intro st now rs e he h
    simp [getOptimizedGasData, getFromCache, he, h]
  · intro t1 t2 rs1 rs2 h
    simp [getOptimizedGasData, getFromCache, setCache, h]
  · intro st now rs e he h
    have hnot : ¬(now - e.timestamp < cacheTimeout) := by linarith
    simp [getOptimizedGasData, getFromCache, he, hnot]

/-- C7 witness: a fresh entry stamped at 0 is served unchanged at
t = 10000 ms and refreshed at t = 40000 ms (past the 30000 ms TTL). -/
theorem c7_witness :
    getOptimizedGasData ⟨some ⟨[gasTieA], 0⟩⟩ 10000 [] =
      ([gasTieA], ⟨some ⟨[gasTieA], 0⟩⟩, false) ∧
    getOptimizedGasData ⟨some ⟨[gasTieA], 0⟩⟩ 40000 [] =
      (successes [], setCache ⟨some ⟨[gasTieA], 0⟩⟩ 40000 (successes []), true) :=
  ⟨c7_cache_ttl.2.1 ⟨some ⟨[gasTieA], 0⟩⟩ 10000 [] ⟨[gasTieA], 0⟩ rfl
      (by norm_num [cacheTimeout]),
    c7_cache_ttl.2.2.2 ⟨some ⟨[gasTieA], 0⟩⟩ 40000 [] ⟨[gasTieA], 0⟩ rfl
      (by norm_num [cacheTimeout])⟩

/-- C8 (confirmed): `makeRequest` attempts the call at most 3 times;
when attempt k fails and attempts remain it waits k × 100 ms before the
next try; a non-2xx response counts as a failed attempt and is retried;
and when all 3 attempts fail the result is the provider-unavailable
error carrying the last underlying error, after delays of 100 ms and
200 ms. -/
theorem c8_retry_backoff {α : Type} (service : String) (outcomes : Nat → FetchResult α) :
    (makeRequest service outcomes).2.2 ≤ 3 ∧
    (isFailure (outcomes 1) = true → isFailure (outcomes 2) = true →
      isFailure (outcomes 3) = true →
      makeRequest service outcomes =
        (.error (.providerUnavailable service 3 (attemptError (outcomes 3))),
          [100, 200], 3)) ∧
    (∀ st stx, outcomes 1 = .httpFailure st stx →
      2 ≤ (makeRequest service outcomes).2.2 ∧
      (makeRequest service outcomes).2.1.head? = some 100) ∧
    (∀ d, outcomes 1 = .success d → makeRequest service outcomes = (.ok d, [], 1)) ∧
    (∀ d, isFailure (outcomes 1) = true → outcomes 2 = .success d →
      makeRequest service outcomes = (.ok d, [100], 2)) := by
  have hbudget : ∀ (l : JsError) (a : Nat) (n : Nat),
      (makeRequestAux service outcomes l a n).2.2 ≤ n := by
    intro l a n
    induction n generalizing l a with
    | zero => simp [makeRequestAux_zero]
    | succ n ih =>
      rcases ho : outcomes a with d | ⟨st, stx⟩ | m
      · rw [makeRequestAux_success service outcomes l a n d ho]
        dsimp only
        omega
      · rw [makeRequestAux_fail service outcomes l a n (by rw [ho]; rfl)]
        have := ih (attemptError (outcomes a)) (a + 1)
        dsimp only
        omega
      · rw [makeRequestAux_fail service outcomes l a n (by rw [ho]; rfl)]
        have := ih (attemptError (outcomes a)) (a + 1)
        dsimp only
        omega
  have hfail3 : isFailure (outcomes 1) = true → isFailure (outcomes 2) = true →
      isFailure (outcomes 3) = true →
      makeRequest service outcomes =
        (.error (.providerUnavailable service 3 (attemptError (outcomes 3))), [100, 200], 3) := by
    intro h1 h2 h3
    rw [makeRequest]
    rw [show retryAttempts = 2 + 1 from rfl]
    rw [makeRequestAux_fail service outcomes _ 1 2 h1]
    rw [show (2 : Nat) = 1 + 1 from rfl]
    rw [makeRequestAux_fail service outcomes _ 2 1 h2]
    rw [show (1 : Nat) = 0 + 1 from rfl]
    rw [makeRequestAux_fail service outcomes _ 3 0 h3]
    rw [makeRequestAux_zero]
    rfl
  refine ⟨?_, hfail3, ?_, ?_, ?_⟩
  · exact hbudget _ 1 retryAttempts
  · intro st stx h1
    have h1f : isFailure (outcomes 1) = true := by rw [h1]; rfl
    rw [makeRequest, show retryAttempts = 2 + 1 from rfl,
      makeRequestAux_fail service outcomes _ 1 2 h1f]
    constructor
    · have hlow := makeRequestAux_low service outcomes (attemptError (outcomes 1)) (1 + 1) 2
        (by omega)
      dsimp only
      omega
    · simp [rateLimitDelay]
  · intro d h1
    rw [makeRequest, show retryAttempts = 2 + 1 from rfl,
      makeRequestAux_success service outcomes _ 1 2 d h1]
  · intro d h1 h2
    rw [makeRequest, show retryAttempts = 2 + 1 from rfl,
      makeRequestAux_fail service outcomes _ 1 2 h1,
      show (2 : Nat) = 1 + 1 from rfl,
      makeRequestAux_success service outcomes _ 2 1 d h2]
    rfl

/-- An environment where every attempt fails with a distinct 5xx
response. -/
def failingOutcomes : Nat → FetchResult Nat :=
  fun k => .httpFailure (500 + k) "Service Unavailable"

/-- C8 witness: three failing attempts yield the provider-unavailable
error carrying the third attempt's HTTP error, after 100 ms and 200 ms
backoffs. -/
theorem c8_witness :
    makeRequest "Blocknative" failingOutcomes =
      (.error (.providerUnavailable "Blocknative" 3 (.httpError 503 "Service Unavailable")),
        [100, 200], 3) :=
  (c8_retry_backoff "Blocknative" failingOutcomes).2.1 rfl rfl rfl

/-- C9 (confirmed): whenever `analyzeSwap` returns successfully, the
reported savings amount is non-negative; it exceeds 5 when the
recommendation is `use_l2`, exceeds 2 when it is `wait`, and is exactly 0
when it is `execute_now`. -/
theorem c9_savings_invariant (quote : Quote) (a : SwapAnalysis)
    (h : analyzeSwap quote = .ok a) :
    0 ≤ a.savings.amount ∧
    (a.recommendation = .use_l2 → 5 < a.savings.amount) ∧
    (a.recommendation = .wait → 2 < a.savings.amount) ∧
    (a.recommendation = .execute_now → a.savings.amount = 0) := by
  obtain ⟨gd, dr, l2s⟩ := quote
  have hq : analyzeQuoteData ⟨gd, dr, l2s⟩ = .ok a := by
    rw [analyzeSwap] at h
    rcases hq : analyzeQuoteData ⟨gd, dr, l2s⟩ with e | b
    · rw [hq] at h
      cases h
    · rw [hq] at h
      cases h
      rfl
  clear h
  rcases gd with _ | ⟨g, gs⟩
  · cases hq
  rcases dr with _ | ⟨r, rs⟩
  · cases hq
  rcases hw : calculateWaitSavings (bestGasOf g gs) (bestRouteOf r rs) with e | w
  · simp only [analyzeQuoteData, hw] at hq
    exact Except.noConfusion hq
  have hnn : 0 ≤ w.amount := waitSavings_amount_nonneg _ _ _ hw
  rcases l2s with _ | ⟨o, os⟩
  · simp only [analyzeQuoteData, hw] at hq
    split_ifs at hq with h5 h2
    · exact absurd h5.1 (by norm_num)
    · simp only [Except.ok.injEq] at hq
      subst hq
      exact ⟨hnn, by simp, fun _ => h2.1, by simp⟩
    · simp only [Except.ok.injEq] at hq
      subst hq
      exact ⟨le_refl 0, by simp, by simp, fun _ => rfl⟩
  · simp only [analyzeQuoteData, hw] at hq
    split_ifs at hq with h5 h2
    · simp only [Except.ok.injEq] at hq
      subst hq
      exact ⟨by linarith [h5.1], fun _ => h5.1, by simp, by simp⟩
    · simp only [Except.ok.injEq] at hq
      subst hq
      exact ⟨hnn, by simp, fun _ => h2.1, by simp⟩
    · simp only [Except.ok.injEq] at hq
      subst hq
      exact ⟨le_refl 0, by simp, by simp, fun _ => rfl⟩

/-- C9 witness: the invariant instantiated on the bridge-win scenario
(a successful `use_l2` analysis with savings 17). -/
theorem c9_witness :
    0 ≤ scenarioAnalysis.savings.amount ∧
    (scenarioAnalysis.recommendation = .use_l2 → 5 < scenarioAnalysis.savings.amount) ∧
    (scenarioAnalysis.recommendation = .wait → 2 < scenarioAnalysis.savings.amount) ∧
    (scenarioAnalysis.recommendation = .execute_now → scenarioAnalysis.savings.amount = 0) :=
  c9_savings_invariant ⟨[bridgeGas], [sampleRoute], [bridgeL2]⟩ scenarioAnalysis
    (by
      norm_num [analyzeSwap, analyzeQuoteData, bestGasOf, bestRouteOf, bestL2Of, minBy1,
        calculateWaitSavings, mkForecastCosts, List.enum, List.enumFrom,
        bridgeGas, sampleRoute, bridgeL2, jsOrString, jsOrQ, scenarioAnalysis]
      exact fun h => absurd h (by decide))

/-- C10 (confirmed): when every gas provider fails, the empty result set
is cached exactly like a success, so a second call within the TTL serves
the empty set from the cache without any fan-out — even if the providers
(`rs2`) would now succeed. -/
theorem c10_negative_caching (t1 t2 : ℤ) (rs1 rs2 : List (Except JsError GasPriceData))
    (hfail : ∀ r ∈ rs1, ∃ e, r = .error e) (httl : t2 - t1 < cacheTimeout) :
    getOptimizedGasData ⟨none⟩ t1 rs1 = ([], ⟨some ⟨[], t1⟩⟩, true) ∧
    getOptimizedGasData ⟨some ⟨[], t1⟩⟩ t2 rs2 = ([], ⟨some ⟨[], t1⟩⟩, false) := by
  have hnil : successes rs1 = [] := successes_eq_nil rs1 hfail
  constructor
  · simp [getOptimizedGasData, getFromCache, setCache, hnil]
  · simp [getOptimizedGasData, getFromCache, httl]

/-- C10 witness: one failed fan-out at t = 0 caches the empty set; a call
at t = 1000 with a now-healthy provider still serves the cached empty
set without a fan-out. -/
theorem c10_witness :
    getOptimizedGasData ⟨none⟩ 0 [.error .emptyReduce] = ([], ⟨some ⟨[], 0⟩⟩, true) ∧
    getOptimizedGasData ⟨some ⟨[], 0⟩⟩ 1000 [.ok gasTieA] =
      ([], ⟨some ⟨[], 0⟩⟩, false) :=
  c10_negative_caching 0 1000 [.error .emptyReduce] [.ok gasTieA]
    (by
      intro r hr
      simp only [List.mem_singleton] at hr
      subst hr
      exact ⟨.emptyReduce, rfl⟩)
    (by norm_num [cacheTimeout])

end FeeOptimizer
